import Mathlib

/-!
Shallow embedding of the WebGIS-Django API (src/api/api.py, src/api/models.py,
src/api/schemas.py) for verification.

The repository is a thin Django-Ninja wrapper over a spatial database engine
(PostGIS/GEOS, reached through GeoDjango ORM lookups and GEOS geometry methods)
and a geospatial data-abstraction library (GDAL/OGR).  The wrapper's own logic
(route handlers over three feature tables of points, lines and polygons) is
embedded concretely; every geometric computation the handlers delegate to the
engine is a field of an abstract `Engine` structure, and every GDAL/OGR library
call is a field of an abstract `Gdal` oracle whose operations may raise
(`Except String`), mirroring Python exceptions.

Coordinates and measures are rationals (the embedding abstracts IEEE doubles to
exact arithmetic; none of the claims depends on rounding).
-/

set_option autoImplicit false

namespace WebGIS

/-- A GEOS point geometry `Point(x, y)`: coordinates are stored exactly and
read back with `.x` / `.y` (src/api/api.py create_point / get_point). -/
structure PtGeom where
  x : ℚ
  y : ℚ
deriving DecidableEq, Repr

/-- One row of a feature table (`DemoPolygon` / `DemoPoint` / `DemoLine` in
src/api/models.py): primary key, `name`, and geometry column `geom`. -/
structure Feature (γ : Type) where
  id : ℕ
  name : String
  geom : γ
deriving DecidableEq, Repr

/-- The database state: the three feature tables in insertion order, plus the
auto-increment primary-key counters the database uses for `objects.create`. -/
structure Store (G : Type) where
  polygons : List (Feature G)
  points : List (Feature PtGeom)
  lines : List (Feature G)
  nextPolyId : ℕ
  nextPointId : ℕ
  nextLineId : ℕ
deriving DecidableEq, Repr

/-- Database invariant: every stored primary key is below the corresponding
auto-increment counter (true of any state reachable from an empty database). -/
def Store.WF {G : Type} (s : Store G) : Prop :=
  (∀ f ∈ s.polygons, f.id < s.nextPolyId) ∧
  (∀ f ∈ s.points, f.id < s.nextPointId) ∧
  (∀ f ∈ s.lines, f.id < s.nextLineId)

/-- Source `Model.objects.get(id=i)`: the unique row with primary key `i`, if any. -/
def getById {γ : Type} : List (Feature γ) → ℕ → Option (Feature γ)
  | [], _ => none
  | f :: fs, i => if f.id = i then some f else getById fs i

/-- Source `Model.objects.filter(id=i).delete()`: drop every row with primary key `i`. -/
def deleteById {γ : Type} : List (Feature γ) → ℕ → List (Feature γ)
  | [], _ => []
  | f :: fs, i => if f.id = i then deleteById fs i else f :: deleteById fs i

/-- Source `obj.save()` after mutating name and geometry: replace the row with
primary key `i` in place. -/
def updateById {γ : Type} : List (Feature γ) → ℕ → String → γ → List (Feature γ)
  | [], _, _, _ => []
  | f :: fs, i, n, g =>
    if f.id = i then { f with name := n, geom := g } :: fs
    else f :: updateById fs i n g

/-- The spatial engine (PostGIS/GEOS) behind GeoDjango: every geometric
computation the handlers perform is one of these operations.  `G` is the
engine's representation of polygon and line geometries. -/
structure Engine (G : Type) where
  /-- Source `GEOSGeometry(geojson_string)` -/
  fromGeoJSON : String → G
  /-- Source `geom.geojson` / `AsGeoJSON(geom)` -/
  toGeoJSON : G → String
  /-- Source `AsGeoJSON` applied to a point geometry -/
  ptToGeoJSON : PtGeom → String
  /-- Source `Polygon.from_bbox((minx, miny, maxx, maxy))` -/
  fromBbox : ℚ → ℚ → ℚ → ℚ → G
  /-- Source `geom__intersects` filter (ST_Intersects) -/
  intersects : G → G → Bool
  /-- Source `geom__within` filter for a point against a polygon (ST_Within) -/
  withinPoly : PtGeom → G → Bool
  /-- Source `geom__distance_lte=(point, meters)` filter -/
  distLte : PtGeom → PtGeom → ℚ → Bool
  /-- Source `Distance('geom', point)` annotation, read in meters via `.m` -/
  distance : PtGeom → PtGeom → ℚ
  /-- Source `Area('geom')` annotation -/
  area : G → ℚ
  /-- Source `Centroid('geom')` annotation -/
  centroid : G → G
  /-- Source `geom.simplify(tolerance, preserve_topology=True)` -/
  simplifyPT : G → ℚ → G
  /-- Source `geom.union(other)` (binary ST_Union) -/
  union : G → G → G
  /-- the engine's single aggregate union of a set of geometries
  (PostGIS aggregate ST_Union); used as the specification side of the
  pass-through claim about `union_all_polygons` -/
  unionAll : List G → G
  /-- Source `geom.intersection(other)` -/
  intersection : G → G → G
  /-- Source `geom.difference(other)` -/
  difference : G → G → G
  /-- Source `geom.empty` -/
  isEmpty : G → Bool
  /-- Source `geom.buffer(meters)` -/
  buffer : G → ℚ → G

/-- A `{"id": .., "name": .., "geojson": ..}` row of a query response. -/
structure GeoRow where
  id : ℕ
  name : String
  geojson : String
deriving DecidableEq, Repr

/-- A `{"id": .., "name": .., "area": ..}` row of the polygon-areas response. -/
structure AreaRow where
  id : ℕ
  name : String
  area : ℚ
deriving DecidableEq, Repr

/-- Response schema `PolygonOut` (src/api/schemas.py); `LineOut` is identical. -/
structure PolygonOut where
  id : ℕ
  name : String
  geojson : String
deriving DecidableEq, Repr

/-- Response schema `PointOut` (src/api/schemas.py). -/
structure PointOut where
  id : ℕ
  name : String
  lng : ℚ
  lat : ℚ
deriving DecidableEq, Repr

/-- Request schema `PolygonIn` (src/api/schemas.py); `LineIn` is identical. -/
structure PolygonIn where
  name : String
  geojson : String
deriving DecidableEq, Repr

/-- Request schema `PointIn` (src/api/schemas.py). -/
structure PointIn where
  name : String
  lng : ℚ
  lat : ℚ
deriving DecidableEq, Repr

/-- Request schema `LineIn` (src/api/schemas.py). -/
structure LineIn where
  name : String
  geojson : String
deriving DecidableEq, Repr

/-- Response schema `LineOut` (src/api/schemas.py). -/
structure LineOut where
  id : ℕ
  name : String
  geojson : String
deriving DecidableEq, Repr

/-- A handler result that is either a normal payload or a `JsonResponse`
carrying an HTTP error status and an error message. -/
inductive ApiResult (α : Type) where
  | ok (val : α)
  | jsonError (status : ℕ) (msg : String)
deriving DecidableEq, Repr

/-- A handler result that is either a normal payload or a plain JSON object
with an `error` field (returned with normal HTTP status). -/
inductive OkOrError (α : Type) where
  | ok (val : α)
  | err (msg : String)
deriving DecidableEq, Repr

/-- Serialize a feature as a `values('id', 'name', 'geojson')` row. -/
def toGeoRow {G : Type} (e : Engine G) (f : Feature G) : GeoRow :=
  ⟨f.id, f.name, e.toGeoJSON f.geom⟩

/-- Serialize a point feature as a `values('id', 'name', 'geojson')` row. -/
def toPtRow {G : Type} (e : Engine G) (f : Feature PtGeom) : GeoRow :=
  ⟨f.id, f.name, e.ptToGeoJSON f.geom⟩

section Handlers

variable {G : Type}

/-- GET /polygons (`list_polygons`): all polygons as GeoJSON rows. -/
def list_polygons (e : Engine G) (s : Store G) : List GeoRow × Store G :=
  (s.polygons.map (toGeoRow e), s)

/-- GET /polygons_in_bbox (`polygons_in_bbox`): polygons whose geometry
intersects `Polygon.from_bbox((minx, miny, maxx, maxy))`, filtered by the
engine's `geom__intersects` lookup. -/
def polygons_in_bbox (e : Engine G) (s : Store G) (minx miny maxx maxy : ℚ) :
    List GeoRow × Store G :=
  let bbox := e.fromBbox minx miny maxx maxy
  ((s.polygons.filter (fun f => e.intersects f.geom bbox)).map (toGeoRow e), s)

/-- GET /polygon_areas (`polygon_areas`). -/
def polygon_areas (e : Engine G) (s : Store G) : List AreaRow × Store G :=
  (s.polygons.map (fun f => ⟨f.id, f.name, e.area f.geom⟩), s)

/-- GET /simplify_polygons (`simplify_polygons`) at an explicit tolerance:
each polygon's id and name with `geom.simplify(tolerance, preserve_topology=True)`. -/
def simplify_polygons (e : Engine G) (s : Store G) (tolerance : ℚ) :
    List GeoRow × Store G :=
  (s.polygons.map (fun f => ⟨f.id, f.name, e.toGeoJSON (e.simplifyPT f.geom tolerance)⟩), s)

/-- The declared default of the `tolerance` query parameter (`tolerance: float = 0.001`). -/
def default_tolerance : ℚ := 1 / 1000

/-- GET /simplify_polygons with the `tolerance` parameter omitted. -/
def simplify_polygons_default (e : Engine G) (s : Store G) : List GeoRow × Store G :=
  simplify_polygons e s default_tolerance

/-- GET /polygon_centroids (`polygon_centroids`). -/
def polygon_centroids (e : Engine G) (s : Store G) : List GeoRow × Store G :=
  (s.polygons.map (fun f => ⟨f.id, f.name, e.toGeoJSON (e.centroid f.geom)⟩), s)

/-- POST /polygons (`create_polygon`): parse the payload GeoJSON, create a row
with a fresh primary key, and answer with the stored row. -/
def create_polygon (e : Engine G) (s : Store G) (payload : PolygonIn) :
    PolygonOut × Store G :=
  let geom := e.fromGeoJSON payload.geojson
  let polygon : Feature G := ⟨s.nextPolyId, payload.name, geom⟩
  (⟨polygon.id, polygon.name, e.toGeoJSON polygon.geom⟩,
   { s with polygons := s.polygons ++ [polygon], nextPolyId := s.nextPolyId + 1 })

/-- GET /polygons/{polygon_id} (`get_polygon`); `none` models the uncaught
`DoesNotExist` exception of `objects.get`. -/
def get_polygon (e : Engine G) (s : Store G) (polygon_id : ℕ) :
    Option PolygonOut × Store G :=
  match getById s.polygons polygon_id with
  | none => (none, s)
  | some polygon => (some ⟨polygon.id, polygon.name, e.toGeoJSON polygon.geom⟩, s)

/-- PUT /polygons/{polygon_id} (`update_polygon`). -/
def update_polygon (e : Engine G) (s : Store G) (polygon_id : ℕ) (payload : PolygonIn) :
    Option PolygonOut × Store G :=
  match getById s.polygons polygon_id with
  | none => (none, s)
  | some _ =>
    let geom := e.fromGeoJSON payload.geojson
    (some ⟨polygon_id, payload.name, e.toGeoJSON geom⟩,
     { s with polygons := updateById s.polygons polygon_id payload.name geom })

/-- DELETE /polygons/{polygon_id} (`delete_polygon`):
`objects.filter(id=..).delete()` then `{"success": True}` unconditionally. -/
def delete_polygon (s : Store G) (polygon_id : ℕ) : Bool × Store G :=
  (true, { s with polygons := deleteById s.polygons polygon_id })

/-- GET /points (`list_points`). -/
def list_points (e : Engine G) (s : Store G) : List GeoRow × Store G :=
  (s.points.map (toPtRow e), s)

/-- GET /points_near (`points_near`): points within `radius_meters` of the
query point, filtered by the engine's `geom__distance_lte` lookup. -/
def points_near (e : Engine G) (s : Store G) (lng lat radius_meters : ℚ) :
    List GeoRow × Store G :=
  let point : PtGeom := ⟨lng, lat⟩
  ((s.points.filter (fun f => e.distLte f.geom point radius_meters)).map (toPtRow e), s)

/-- POST /points (`create_point`): store `Point(lng, lat)` under a fresh key
and answer with the stored row's `.x` and `.y`. -/
def create_point (s : Store G) (payload : PointIn) : PointOut × Store G :=
  let point : Feature PtGeom := ⟨s.nextPointId, payload.name, ⟨payload.lng, payload.lat⟩⟩
  (⟨point.id, point.name, point.geom.x, point.geom.y⟩,
   { s with points := s.points ++ [point], nextPointId := s.nextPointId + 1 })

/-- GET /points/{point_id} (`get_point`). -/
def get_point (s : Store G) (point_id : ℕ) : Option PointOut × Store G :=
  match getById s.points point_id with
  | none => (none, s)
  | some point => (some ⟨point.id, point.name, point.geom.x, point.geom.y⟩, s)

/-- PUT /points/{point_id} (`update_point`). -/
def update_point (s : Store G) (point_id : ℕ) (payload : PointIn) :
    Option PointOut × Store G :=
  match getById s.points point_id with
  | none => (none, s)
  | some _ =>
    (some ⟨point_id, payload.name, payload.lng, payload.lat⟩,
     { s with points := updateById s.points point_id payload.name ⟨payload.lng, payload.lat⟩ })

/-- DELETE /points/{point_id} (`delete_point`). -/
def delete_point (s : Store G) (point_id : ℕ) : Bool × Store G :=
  (true, { s with points := deleteById s.points point_id })

/-- POST /lines (`create_line`). -/
def create_line (e : Engine G) (s : Store G) (payload : LineIn) : LineOut × Store G :=
  let geom := e.fromGeoJSON payload.geojson
  let line : Feature G := ⟨s.nextLineId, payload.name, geom⟩
  (⟨line.id, line.name, e.toGeoJSON line.geom⟩,
   { s with lines := s.lines ++ [line], nextLineId := s.nextLineId + 1 })

/-- GET /lines/{line_id} (`get_line`). -/
def get_line (e : Engine G) (s : Store G) (line_id : ℕ) : Option LineOut × Store G :=
  match getById s.lines line_id with
  | none => (none, s)
  | some line => (some ⟨line.id, line.name, e.toGeoJSON line.geom⟩, s)

/-- PUT /lines/{line_id} (`update_line`). -/
def update_line (e : Engine G) (s : Store G) (line_id : ℕ) (payload : LineIn) :
    Option LineOut × Store G :=
  match getById s.lines line_id with
  | none => (none, s)
  | some _ =>
    let geom := e.fromGeoJSON payload.geojson
    (some ⟨line_id, payload.name, e.toGeoJSON geom⟩,
     { s with lines := updateById s.lines line_id payload.name geom })

/-- DELETE /lines/{line_id} (`delete_line`). -/
def delete_line (s : Store G) (line_id : ℕ) : Bool × Store G :=
  (true, { s with lines := deleteById s.lines line_id })

/-- GET /points_in_polygon/{polygon_id} (`points_in_polygon`): 404 when the
polygon is missing, else the points passing the engine's `geom__within` lookup
against the polygon's geometry. -/
def points_in_polygon (e : Engine G) (s : Store G) (polygon_id : ℕ) :
    ApiResult (List GeoRow) × Store G :=
  match getById s.polygons polygon_id with
  | none => (.jsonError 404 "Polygon not found", s)
  | some polygon =>
    (.ok ((s.points.filter (fun p => e.withinPoly p.geom polygon.geom)).map (toPtRow e)), s)

/-- Insert into a list already ascending under `key` (stable for ties). -/
def insertByKey {α : Type} (key : α → ℚ) (a : α) : List α → List α
  | [] => [a]
  | b :: bs => if key a ≤ key b then a :: b :: bs else b :: insertByKey key a bs

/-- Stable insertion sort by a rational key: the deterministic embedding of
the database's `order_by('distance')`. -/
def sortByKey {α : Type} (key : α → ℚ) : List α → List α
  | [] => []
  | a :: as => insertByKey key a (sortByKey key as)

/-- The `{"id", "name", "distance_meters"}` payload of GET /nearest_point. -/
structure NearestOut where
  id : ℕ
  name : String
  distance_meters : ℚ
deriving DecidableEq, Repr

/-- GET /nearest_point (`nearest_point`): annotate every point with the
engine distance to `Point(lng, lat)`, order by it, take the first; an error
object when no points are stored. -/
def nearest_point (e : Engine G) (s : Store G) (lng lat : ℚ) :
    OkOrError NearestOut × Store G :=
  let point : PtGeom := ⟨lng, lat⟩
  match sortByKey (fun f => e.distance f.geom point) s.points with
  | [] => (.err "No points found", s)
  | nearest :: _ => (.ok ⟨nearest.id, nearest.name, e.distance nearest.geom point⟩, s)

/-- GET /intersection/{poly1_id}/{poly2_id} (`intersection`). -/
def intersection (e : Engine G) (s : Store G) (poly1_id poly2_id : ℕ) :
    ApiResult (Option String) × Store G :=
  match getById s.polygons poly1_id, getById s.polygons poly2_id with
  | some poly1, some poly2 =>
    let inter := e.intersection poly1.geom poly2.geom
    if e.isEmpty inter then (.ok none, s)
    else (.ok (some (e.toGeoJSON inter)), s)
  | _, _ => (.jsonError 404 "One or both polygons not found", s)

/-- GET /difference/{poly1_id}/{poly2_id} (`difference`). -/
def difference (e : Engine G) (s : Store G) (poly1_id poly2_id : ℕ) :
    ApiResult (Option String) × Store G :=
  match getById s.polygons poly1_id, getById s.polygons poly2_id with
  | some poly1, some poly2 =>
    let diffG := e.difference poly1.geom poly2.geom
    if e.isEmpty diffG then (.ok none, s)
    else (.ok (some (e.toGeoJSON diffG)), s)
  | _, _ => (.jsonError 404 "One or both polygons not found", s)

/-- GET /union_all_polygons (`union_all_polygons`): `None` when the table is
empty, else the left-to-right fold of the engine's binary union starting from
the first polygon's geometry. -/
def union_all_polygons (e : Engine G) (s : Store G) : Option String × Store G :=
  match s.polygons with
  | [] => (none, s)
  | p0 :: rest =>
    (some (e.toGeoJSON (rest.foldl (fun acc p => e.union acc p.geom) p0.geom)), s)

/-- GET /buffer_polygon/{polygon_id} (`buffer_polygon`). -/
def buffer_polygon (e : Engine G) (s : Store G) (polygon_id : ℕ) (buffer_meters : ℚ) :
    ApiResult String × Store G :=
  match getById s.polygons polygon_id with
  | none => (.jsonError 404 "Polygon not found", s)
  | some polygon => (.ok (e.toGeoJSON (e.buffer polygon.geom buffer_meters)), s)

end Handlers

/-- A GDAL affine geotransform `(c0, c1, c2, c3, c4, c5)`:
`x_geo = c0 + px*c1 + py*c2` and `y_geo = c3 + px*c4 + py*c5`. -/
structure GeoTransform where
  c0 : ℚ
  c1 : ℚ
  c2 : ℚ
  c3 : ℚ
  c4 : ℚ
  c5 : ℚ
deriving DecidableEq, Repr

/-- Python float true division, which raises `ZeroDivisionError` on a zero
divisor. -/
def pyDiv (a b : ℚ) : Except String ℚ :=
  if b = 0 then .error "float division by zero" else .ok (a / b)

/-- Python `int(..)` applied to a float: truncation toward zero. -/
def pyInt (q : ℚ) : ℤ :=
  if q < 0 then -⌊-q⌋ else ⌊q⌋

/-- Calling a method on the `None` returned by a failed `gdal.Open` or
`ogr.Open` raises an `AttributeError`. -/
def requireSome {α : Type} (x : Option α) (method : String) : Except String α :=
  match x with
  | none => .error ("NoneType object has no attribute " ++ method)
  | some a => .ok a

/-- The GDAL/OGR library (plus Django file storage) as an abstract oracle.
Each field is one library call of src/api/api.py; fallible calls live in
`Except String` (an `Except.error` is a raised Python exception), and the two
`Open` entry points may instead return `none`, GDAL's untrapped failure mode.
`DS`/`Band` are raster datasets and bands, `SRS`/`CT` spatial reference
systems and coordinate transformations, `VDS`/`Layer`/`Feat` vector datasets,
layers and features. -/
structure Gdal (DS Band SRS CT VDS Layer Feat : Type) where
  /-- Source `gdal.Open(path)` -/
  openRaster : String → Except String (Option DS)
  /-- Source `ds.GetGeoTransform()` -/
  getGeoTransform : DS → GeoTransform
  /-- Source `ds.GetProjection()` -/
  getProjection : DS → String
  /-- Source `osr.SpatialReference(wkt=proj)` -/
  srsFromWkt : String → Except String SRS
  /-- Source `osr.SpatialReference(); ImportFromEPSG(code)` -/
  srsFromEPSG : ℕ → Except String SRS
  /-- Source `osr.CoordinateTransformation(src, dst)` -/
  coordTransform : SRS → SRS → Except String CT
  /-- Source `transform.TransformPoint(lng, lat)` -/
  transformPoint : CT → ℚ → ℚ → Except String (ℚ × ℚ × ℚ)
  /-- Source `ds.GetRasterBand(n)` -/
  getRasterBand : DS → ℕ → Except String Band
  /-- Source `band.ReadAsArray(px, py, 1, 1)` followed by `[0][0]` -/
  readPixel : Band → ℤ → ℤ → Except String ℚ
  /-- Source `band.GetStatistics(True, True)` as (min, max, mean, stddev) -/
  getStatistics : Band → Except String (ℚ × ℚ × ℚ × ℚ)
  /-- Source `gdal.Translate(out_path, raster_path, projWin=[a, b, c, d])` -/
  translateClip : String → String → ℚ → ℚ → ℚ → ℚ → Except String Unit
  /-- Source `ogr.Open(path)` -/
  openVector : String → Except String (Option VDS)
  /-- Source `ds.GetLayer()` -/
  getLayer : VDS → Except String Layer
  /-- Source `layer.schema` as (field name, field type name) pairs -/
  layerSchema : Layer → Except String (List (String × String))
  /-- Source `layer.GetSpatialRef()` -/
  getSpatialRef : Layer → Except String SRS
  /-- iterating `for feat in layer` -/
  layerFeatures : Layer → List Feat
  /-- Source `feat.GetGeometryRef()`, `geom.Transform(t)`, `geom.ExportToJson()` -/
  transformFeature : CT → Feat → Except String String
  /-- Source `default_storage.save("tmp/" + name, ContentFile(file.read()))` -/
  storageSave : String → Except String String
  /-- Source `default_storage.path(p)` -/
  storagePath : String → Except String String
  /-- Source `ds.GetDriver().LongName` -/
  driverLongName : DS → String
  /-- Source `ds.RasterXSize` -/
  rasterXSize : DS → ℕ
  /-- Source `ds.RasterYSize` -/
  rasterYSize : DS → ℕ
  /-- Source `ds.RasterCount` -/
  rasterCount : DS → ℕ

/-- The `{"min", "max", "mean", "stddev"}` payload of GET /gdal/raster-stats. -/
structure StatsOut where
  min : ℚ
  max : ℚ
  mean : ℚ
  stddev : ℚ
deriving DecidableEq, Repr

/-- One `{"name", "type"}` entry of the GET /gdal/vector-schema payload. -/
structure FieldOut where
  name : String
  type : String
deriving DecidableEq, Repr

/-- The payload of GET /gdal/raster-metadata. -/
structure MetadataOut where
  driver : String
  size : ℕ × ℕ
  bands : ℕ
  projection : String
  geotransform : GeoTransform
deriving DecidableEq, Repr

/-- Run a GDAL handler body under its `except Exception as e` clause: a raised
exception becomes a normal-status JSON object with an `error` field. -/
def runCaught {α : Type} (body : Except String (OkOrError α)) : OkOrError α :=
  match body with
  | .ok r => r
  | .error msg => .err msg

section GdalHandlers

variable {DS Band SRS CT VDS Layer Feat : Type}

/-- The `try:` block of GET /gdal/raster-stats (`raster_stats`). -/
def raster_stats_body (o : Gdal DS Band SRS CT VDS Layer Feat) (raster_path : String) :
    Except String (OkOrError StatsOut) := do
  let ds? ← o.openRaster raster_path
  match ds? with
  | none => return .err "Could not open raster"
  | some ds =>
    let band ← o.getRasterBand ds 1
    let stats ← o.getStatistics band
    return .ok ⟨stats.1, stats.2.1, stats.2.2.1, stats.2.2.2⟩

/-- GET /gdal/raster-stats (`raster_stats`). -/
def raster_stats (o : Gdal DS Band SRS CT VDS Layer Feat) (raster_path : String) :
    OkOrError StatsOut :=
  runCaught (raster_stats_body o raster_path)

/-- The `try:` block of GET /gdal/pixel-value (`pixel_value`): open the
raster, build the EPSG:4326 → raster-SRS transformation, transform the query
point, invert the north-up part of the geotransform in Python arithmetic
(ignoring the rotation coefficients c2 and c4, truncating with `int(..)`),
and read band 1 at that pixel. -/
def pixel_value_body (o : Gdal DS Band SRS CT VDS Layer Feat)
    (raster_path : String) (lng lat : ℚ) : Except String (OkOrError ℚ) := do
  let ds? ← o.openRaster raster_path
  let ds ← requireSome ds? "GetGeoTransform"
  let gt := o.getGeoTransform ds
  let proj := o.getProjection ds
  let srs ← o.srsFromWkt proj
  let srs_latlon ← o.srsFromEPSG 4326
  let transform ← o.coordTransform srs_latlon srs
  let xyz ← o.transformPoint transform lng lat
  let qx ← pyDiv (xyz.1 - gt.c0) gt.c1
  let px := pyInt qx
  let qy ← pyDiv (xyz.2.1 - gt.c3) gt.c5
  let py := pyInt qy
  let band ← o.getRasterBand ds 1
  let val ← o.readPixel band px py
  return .ok val

/-- GET /gdal/pixel-value (`pixel_value`). -/
def pixel_value (o : Gdal DS Band SRS CT VDS Layer Feat)
    (raster_path : String) (lng lat : ℚ) : OkOrError ℚ :=
  runCaught (pixel_value_body o raster_path lng lat)

/-- Modelled from the spec: the specification side of claim C7, following the
spec text — raster pixel lookup as a single call into the engine, returning
the engine's band-1 value at the queried location after the engine's
coordinate transformation from EPSG:4326 into the raster's reference system.
The engine locates a geo-point by inverting the full affine geotransform
(GDAL's InvGeoTransform, using all six coefficients) and reading the
containing (floored) pixel. -/
def engine_pixel_value_spec (o : Gdal DS Band SRS CT VDS Layer Feat)
    (raster_path : String) (lng lat : ℚ) : Except String (OkOrError ℚ) := do
  let ds? ← o.openRaster raster_path
  let ds ← requireSome ds? "GetGeoTransform"
  let gt := o.getGeoTransform ds
  let proj := o.getProjection ds
  let srs ← o.srsFromWkt proj
  let srs_latlon ← o.srsFromEPSG 4326
  let transform ← o.coordTransform srs_latlon srs
  let xyz ← o.transformPoint transform lng lat
  let det := gt.c1 * gt.c5 - gt.c2 * gt.c4
  if det = 0 then
    Except.error "geotransform is not invertible"
  else do
    let pxq := (gt.c5 * (xyz.1 - gt.c0) - gt.c2 * (xyz.2.1 - gt.c3)) / det
    let pyq := (gt.c1 * (xyz.2.1 - gt.c3) - gt.c4 * (xyz.1 - gt.c0)) / det
    let band ← o.getRasterBand ds 1
    let val ← o.readPixel band ⌊pxq⌋ ⌊pyq⌋
    return .ok val

/-- The `try:` block of GET /gdal/clip-raster (`clip_raster`):
`gdal.Translate(out_path, raster_path, projWin=[minx, maxy, maxx, miny])`. -/
def clip_raster_body (o : Gdal DS Band SRS CT VDS Layer Feat)
    (raster_path out_path : String) (minx miny maxx maxy : ℚ) :
    Except String (OkOrError String) := do
  let _ ← o.translateClip out_path raster_path minx maxy maxx miny
  return .ok out_path

/-- GET /gdal/clip-raster (`clip_raster`). -/
def clip_raster (o : Gdal DS Band SRS CT VDS Layer Feat)
    (raster_path out_path : String) (minx miny maxx maxy : ℚ) : OkOrError String :=
  runCaught (clip_raster_body o raster_path out_path minx miny maxx maxy)

/-- The `try:` block of GET /gdal/vector-schema (`vector_schema`); note the
code calls `.GetLayer()` on the result of `ogr.Open` without a `None` check,
so an unopenable dataset raises inside the block. -/
def vector_schema_body (o : Gdal DS Band SRS CT VDS Layer Feat)
    (vector_path : String) : Except String (OkOrError (List FieldOut)) := do
  let ds? ← o.openVector vector_path
  let ds ← requireSome ds? "GetLayer"
  let layer ← o.getLayer ds
  let fields ← o.layerSchema layer
  return .ok (fields.map (fun f => ⟨f.1, f.2⟩))

/-- GET /gdal/vector-schema (`vector_schema`). -/
def vector_schema (o : Gdal DS Band SRS CT VDS Layer Feat)
    (vector_path : String) : OkOrError (List FieldOut) :=
  runCaught (vector_schema_body o vector_path)

/-- The `try:` block of POST /gdal/upload-reproject (`upload_and_reproject`):
save the upload, open it, build the source-SRS → EPSG:4326 transformation,
and transform every feature geometry to GeoJSON. -/
def upload_and_reproject_body (o : Gdal DS Band SRS CT VDS Layer Feat)
    (file_name : String) : Except String (OkOrError (List String)) := do
  let input_path ← o.storageSave file_name
  let real_path ← o.storagePath input_path
  let input_ds? ← o.openVector real_path
  match input_ds? with
  | none => return .err "Could not open uploaded file"
  | some input_ds =>
    let input_layer ← o.getLayer input_ds
    let source_srs ← o.getSpatialRef input_layer
    let target_srs ← o.srsFromEPSG 4326
    let transform ← o.coordTransform source_srs target_srs
    let features ← (o.layerFeatures input_layer).mapM (fun feat => o.transformFeature transform feat)
    return .ok features

/-- POST /gdal/upload-reproject (`upload_and_reproject`). -/
def upload_and_reproject (o : Gdal DS Band SRS CT VDS Layer Feat)
    (file_name : String) : OkOrError (List String) :=
  runCaught (upload_and_reproject_body o file_name)

/-- The `try:` block of GET /gdal/raster-metadata (`raster_metadata`). -/
def raster_metadata_body (o : Gdal DS Band SRS CT VDS Layer Feat)
    (raster_path : String) : Except String (OkOrError MetadataOut) := do
  let ds? ← o.openRaster raster_path
  match ds? with
  | none => return .err "Unable to open raster"
  | some dataset =>
    return .ok ⟨o.driverLongName dataset, (o.rasterXSize dataset, o.rasterYSize dataset),
      o.rasterCount dataset, o.getProjection dataset, o.getGeoTransform dataset⟩

/-- GET /gdal/raster-metadata (`raster_metadata`). -/
def raster_metadata (o : Gdal DS Band SRS CT VDS Layer Feat)
    (raster_path : String) : OkOrError MetadataOut :=
  runCaught (raster_metadata_body o raster_path)

end GdalHandlers

/-- A concrete computable engine over natural-number geometries, used to
exercise the handler theorems on closed inputs. -/
def testEngine : Engine ℕ where
  fromGeoJSON := fun s => s.length
  toGeoJSON := fun g => toString g
  ptToGeoJSON := fun p => toString p.x.num ++ toString p.y.num
  fromBbox := fun a b c d => (a + b + c + d).num.natAbs
  intersects := fun g h => decide (g ≤ h)
  withinPoly := fun p g => decide (p.x.num.natAbs ≤ g)
  distLte := fun p q r => decide (|p.x - q.x| + |p.y - q.y| ≤ r)
  distance := fun p q => |p.x - q.x| + |p.y - q.y|
  area := fun g => (g : ℚ)
  centroid := fun g => g + 1
  simplifyPT := fun g t => g + t.num.natAbs
  union := fun a b => a + b
  unionAll := fun l =>
    match l with
    | [] => 0
    | g :: gs => gs.foldl (fun a b => a + b) g
  intersection := fun a b => a * b
  difference := fun a b => a - b
  isEmpty := fun g => decide (g = 0)
  buffer := fun g m => g + m.num.natAbs

/-- The empty database. -/
def emptyStore : Store ℕ := ⟨[], [], [], 0, 0, 0⟩

/-- A small populated database for closed tests. -/
def sampleStore : Store ℕ where
  polygons := [⟨0, "p0", 3⟩, ⟨1, "p1", 5⟩]
  points := [⟨0, "a", ⟨1, 1⟩⟩, ⟨1, "b", ⟨2, 2⟩⟩, ⟨2, "c", ⟨4, 4⟩⟩]
  lines := [⟨0, "l0", 7⟩]
  nextPolyId := 2
  nextPointId := 3
  nextLineId := 1

/-- A GDAL oracle whose every fallible call raises, for exercising the
except handlers on closed inputs. -/
def failGdal : Gdal Unit Unit Unit Unit Unit Unit Unit where
  openRaster := fun _ => .error "boom"
  getGeoTransform := fun _ => ⟨0, 1, 0, 0, 0, 1⟩
  getProjection := fun _ => ""
  srsFromWkt := fun _ => .error "boom"
  srsFromEPSG := fun _ => .error "boom"
  coordTransform := fun _ _ => .error "boom"
  transformPoint := fun _ _ _ => .error "boom"
  getRasterBand := fun _ _ => .error "boom"
  readPixel := fun _ _ _ => .error "boom"
  getStatistics := fun _ => .error "boom"
  translateClip := fun _ _ _ _ _ _ => .error "boom"
  openVector := fun _ => .error "boom"
  getLayer := fun _ => .error "boom"
  layerSchema := fun _ => .error "boom"
  getSpatialRef := fun _ => .error "boom"
  layerFeatures := fun _ => []
  transformFeature := fun _ _ => .error "boom"
  storageSave := fun _ => .error "boom"
  storagePath := fun _ => .error "boom"
  driverLongName := fun _ => ""
  rasterXSize := fun _ => 0
  rasterYSize := fun _ => 0
  rasterCount := fun _ => 0

/-- A GDAL oracle whose `Open` calls fail softly by returning `None`. -/
def noneGdal : Gdal Unit Unit Unit Unit Unit Unit Unit :=
  { failGdal with
    openRaster := fun _ => .ok none
    openVector := fun _ => .ok none
    storageSave := fun p => .ok p
    storagePath := fun p => .ok p }

/-- A raster oracle with a rotated geotransform (`c2 = 1`): the coordinate
transformation is the identity and the band-1 value at pixel `(px, py)` is
`px + py`, so distinct pixels carry distinct values along each row. -/
def rotGdal : Gdal Unit Unit Unit Unit Unit Unit Unit :=
  { failGdal with
    openRaster := fun _ => .ok (some ())
    getGeoTransform := fun _ => ⟨0, 1, 1, 0, 0, 1⟩
    getProjection := fun _ => "PROJWKT"
    srsFromWkt := fun _ => .ok ()
    srsFromEPSG := fun _ => .ok ()
    coordTransform := fun _ _ => .ok ()
    transformPoint := fun _ lng lat => .ok (lng, lat, 0)
    getRasterBand := fun _ _ => .ok ()
    readPixel := fun _ px py => .ok ((px : ℚ) + (py : ℚ)) }

/-- The same raster oracle with a north-up (rotation-free) geotransform. -/
def northGdal : Gdal Unit Unit Unit Unit Unit Unit Unit :=
  { rotGdal with getGeoTransform := fun _ => ⟨0, 1, 0, 0, 0, 1⟩ }

section Lemmas

variable {γ : Type} {G : Type} {α : Type}

theorem getById_append_fresh (l : List (Feature γ)) (x : Feature γ)
    (h : ∀ f ∈ l, f.id ≠ x.id) : getById (l ++ [x]) x.id = some x := by
  induction l with
  | nil => simp [getById]
  | cons f fs ih =>
    have hf : f.id ≠ x.id := h f (by simp)
    simp only [List.cons_append, getById, if_neg hf]
    exact ih (fun g hg => h g (List.mem_cons_of_mem f hg))

theorem getById_deleteById (l : List (Feature γ)) (i : ℕ) :
    getById (deleteById l i) i = none := by
  induction l with
  | nil => rfl
  | cons f fs ih =>
    by_cases h : f.id = i
    · simpa [deleteById, h] using ih
    · simp [deleteById, h, getById, ih]

theorem deleteById_idem (l : List (Feature γ)) (i : ℕ) :
    deleteById (deleteById l i) i = deleteById l i := by
  induction l with
  | nil => rfl
  | cons f fs ih =>
    by_cases h : f.id = i
    · simp [deleteById, h, ih]
    · simp [deleteById, h, ih]

theorem mem_insertByKey (key : α → ℚ) (x a : α) (l : List α) :
    a ∈ insertByKey key x l ↔ a = x ∨ a ∈ l := by
  induction l with
  | nil => simp [insertByKey]
  | cons b bs ih =>
    by_cases h : key x ≤ key b
    · simp only [insertByKey, if_pos h, List.mem_cons]
    · simp only [insertByKey, if_neg h, List.mem_cons, ih]
      tauto

theorem mem_sortByKey (key : α → ℚ) (a : α) (l : List α) :
    a ∈ sortByKey key l ↔ a ∈ l := by
  induction l with
  | nil => simp [sortByKey]
  | cons b bs ih => simp [sortByKey, mem_insertByKey, ih]

theorem insertByKey_ne_nil (key : α → ℚ) (a : α) (m : List α) :
    insertByKey key a m ≠ [] := by
  cases m with
  | nil => simp [insertByKey]
  | cons b bs => by_cases h : key a ≤ key b <;> simp [insertByKey, h]

theorem insertByKey_head_min (key : α → ℚ) (a : α) (m : List α)
    (hm : ∀ z zs, m = z :: zs → ∀ w ∈ m, key z ≤ key w) :
    ∀ x xs, insertByKey key a m = x :: xs → ∀ y, (y = a ∨ y ∈ m) → key x ≤ key y := by
  cases m with
  | nil =>
    intro x xs hx y hy
    simp only [insertByKey] at hx
    cases hx
    rcases hy with rfl | hy
    · exact le_refl _
    · exact absurd hy (List.not_mem_nil y)
  | cons b bs =>
    intro x xs hx y hy
    by_cases h : key a ≤ key b
    · simp only [insertByKey, if_pos h] at hx
      cases hx
      rcases hy with rfl | hy
      · exact le_refl _
      · rcases List.mem_cons.mp hy with rfl | hy2
        · exact h
        · exact le_trans h (hm b bs rfl y (List.mem_cons_of_mem b hy2))
    · simp only [insertByKey, if_neg h] at hx
      have hxb : x = b := by
        have := congrArg (fun t => t.head?) hx
        simpa using this.symm
      subst hxb
      rcases hy with rfl | hy
      · exact le_of_not_le h
      · rcases List.mem_cons.mp hy with rfl | hy2
        · exact le_refl _
        · exact hm x bs rfl y (List.mem_cons_of_mem x hy2)

theorem sortByKey_head_min (key : α → ℚ) (l : List α) :
    ∀ x xs, sortByKey key l = x :: xs → ∀ y ∈ l, key x ≤ key y := by
  induction l with
  | nil =>
    intro x xs h
    simp [sortByKey] at h
  | cons a as ih =>
    intro x xs h y hy
    have hm : ∀ z zs, sortByKey key as = z :: zs → ∀ w ∈ sortByKey key as, key z ≤ key w :=
      fun z zs hz w hw => ih z zs hz w ((mem_sortByKey key w as).mp hw)
    have hmain := insertByKey_head_min key a (sortByKey key as) hm x xs h y
    rcases List.mem_cons.mp hy with rfl | hy2
    · exact hmain (Or.inl rfl)
    · exact hmain (Or.inr ((mem_sortByKey key y as).mpr hy2))

theorem sortByKey_ne_nil (key : α → ℚ) (l : List α) (h : l ≠ []) :
    sortByKey key l ≠ [] := by
  cases l with
  | nil => exact absurd rfl h
  | cons a as => exact insertByKey_ne_nil key a (sortByKey key as)

theorem pyInt_of_nonneg (q : ℚ) (h : 0 ≤ q) : pyInt q = ⌊q⌋ := by
  unfold pyInt
  rw [if_neg (not_lt.mpr h)]

theorem except_ok_bind {ε β δ : Type} (a : β) (f : β → Except ε δ) :
    (Except.ok a : Except ε β) >>= f = f a := rfl

theorem except_error_bind {ε β δ : Type} (msg : ε) (f : β → Except ε δ) :
    (Except.error msg : Except ε β) >>= f = Except.error msg := rfl

theorem foldl_union_eq_unionAll (e : Engine G)
    (h1 : ∀ g, e.unionAll [g] = g)
    (h2 : ∀ gs g, gs ≠ [] → e.unionAll (gs ++ [g]) = e.union (e.unionAll gs) g)
    (g0 : G) (gs : List G) :
    gs.foldl e.union g0 = e.unionAll (g0 :: gs) := by
  induction gs using List.reverseRecOn with
  | nil => simp [h1]
  | append_singleton gs g ih =>
    rw [List.foldl_append, List.foldl_cons, List.foldl_nil, ih,
      ← List.cons_append, h2 (g0 :: gs) g (by simp)]

end Lemmas

/-- Claim C1: for every feature kind (point, line, polygon) and every valid
create payload, the create endpoint stores a new feature under a fresh id and
returns that id, and a subsequent read of that id returns the same name and
the same geometry — points give back the payload lng/lat exactly, lines and
polygons the GeoJSON serialization of the parsed payload geometry, identical
to the geojson in the create response. -/
theorem create_then_read_roundtrip {G : Type} (e : Engine G) (s : Store G)
    (hwf : s.WF) (pp : PolygonIn) (lp : LineIn) (qp : PointIn) :
    ((get_polygon e (create_polygon e s pp).2 (create_polygon e s pp).1.id).1
        = some ⟨(create_polygon e s pp).1.id, pp.name, e.toGeoJSON (e.fromGeoJSON pp.geojson)⟩
      ∧ (create_polygon e s pp).1.geojson = e.toGeoJSON (e.fromGeoJSON pp.geojson)
      ∧ (create_polygon e s pp).2.polygons
          = s.polygons ++ [⟨(create_polygon e s pp).1.id, pp.name, e.fromGeoJSON pp.geojson⟩]
      ∧ ∀ f ∈ s.polygons, f.id ≠ (create_polygon e s pp).1.id)
    ∧ ((get_point (create_point s qp).2 (create_point s qp).1.id).1
        = some ⟨(create_point s qp).1.id, qp.name, qp.lng, qp.lat⟩
      ∧ (create_point s qp).1.lng = qp.lng
      ∧ (create_point s qp).1.lat = qp.lat
      ∧ (create_point s qp).2.points
          = s.points ++ [⟨(create_point s qp).1.id, qp.name, ⟨qp.lng, qp.lat⟩⟩]
      ∧ ∀ f ∈ s.points, f.id ≠ (create_point s qp).1.id)
    ∧ ((get_line e (create_line e s lp).2 (create_line e s lp).1.id).1
        = some ⟨(create_line e s lp).1.id, lp.name, e.toGeoJSON (e.fromGeoJSON lp.geojson)⟩
      ∧ (create_line e s lp).1.geojson = e.toGeoJSON (e.fromGeoJSON lp.geojson)
      ∧ (create_line e s lp).2.lines
          = s.lines ++ [⟨(create_line e s lp).1.id, lp.name, e.fromGeoJSON lp.geojson⟩]
      ∧ ∀ f ∈ s.lines, f.id ≠ (create_line e s lp).1.id) := by
  obtain ⟨hw1, hw2, hw3⟩ := hwf
  refine ⟨⟨?_, rfl, rfl, fun f hf => Nat.ne_of_lt (hw1 f hf)⟩,
          ⟨?_, rfl, rfl, rfl, fun f hf => Nat.ne_of_lt (hw2 f hf)⟩,
          ⟨?_, rfl, rfl, fun f hf => Nat.ne_of_lt (hw3 f hf)⟩⟩
  · have hget := getById_append_fresh s.polygons
      ⟨s.nextPolyId, pp.name, e.fromGeoJSON pp.geojson⟩
      (fun f hf => Nat.ne_of_lt (hw1 f hf))
    simp [get_polygon, create_polygon, hget]
  · have hget := getById_append_fresh s.points
      ⟨s.nextPointId, qp.name, ⟨qp.lng, qp.lat⟩⟩
      (fun f hf => Nat.ne_of_lt (hw2 f hf))
    simp [get_point, create_point, hget]
  · have hget := getById_append_fresh s.lines
      ⟨s.nextLineId, lp.name, e.fromGeoJSON lp.geojson⟩
      (fun f hf => Nat.ne_of_lt (hw3 f hf))
    simp [get_line, create_line, hget]

/-- Closed instance of claim C1 on the empty database. -/
theorem create_then_read_roundtrip_witness :
    emptyStore.WF ∧
    (get_point (create_point emptyStore ⟨"p", 1, 2⟩).2
        (create_point emptyStore ⟨"p", 1, 2⟩).1.id).1
      = some ⟨(create_point emptyStore ⟨"p", 1, 2⟩).1.id, "p", 1, 2⟩ := by
  have hwf : emptyStore.WF := by
    refine ⟨?_, ?_, ?_⟩ <;> intro f hf <;> exact absurd hf (List.not_mem_nil f)
  exact ⟨hwf,
    ((create_then_read_roundtrip testEngine emptyStore hwf ⟨"a", "gj"⟩ ⟨"l", "gj"⟩
      ⟨"p", 1, 2⟩).2.1).1⟩

/-- Claim C2: the polygons_in_bbox endpoint returns exactly those stored
polygons whose geometry intersects the engine's bbox polygon (each as an
id/name/geojson row) and no others; the filtering is the engine's
intersects predicate applied to the engine's from_bbox rectangle. -/
theorem polygons_in_bbox_exact {G : Type} (e : Engine G) (s : Store G)
    (minx miny maxx maxy : ℚ) :
    (polygons_in_bbox e s minx miny maxx maxy).1
      = (s.polygons.filter
          (fun f => e.intersects f.geom (e.fromBbox minx miny maxx maxy))).map (toGeoRow e)
    ∧ ∀ r : GeoRow,
        r ∈ (polygons_in_bbox e s minx miny maxx maxy).1
          ↔ ∃ f ∈ s.polygons,
              e.intersects f.geom (e.fromBbox minx miny maxx maxy) = true
                ∧ r = toGeoRow e f := by
  refine ⟨rfl, fun r => ?_⟩
  simp only [polygons_in_bbox, List.mem_map, List.mem_filter]
  constructor
  · rintro ⟨f, ⟨hf, hint⟩, rfl⟩
    exact ⟨f, hf, hint, rfl⟩
  · rintro ⟨f, hf, hint, rfl⟩
    exact ⟨f, ⟨hf, hint⟩, rfl⟩

/-- Claim C3: points_in_polygon returns exactly the stored points within the
selected polygon's geometry (via the engine's within predicate) when the
polygon exists, returns a 404 error response when it does not, and leaves the
stored features unchanged in both cases. -/
theorem points_in_polygon_spec {G : Type} (e : Engine G) (s : Store G) (polygon_id : ℕ) :
    (∀ polygon, getById s.polygons polygon_id = some polygon →
        points_in_polygon e s polygon_id
          = (.ok ((s.points.filter
              (fun p => e.withinPoly p.geom polygon.geom)).map (toPtRow e)), s))
    ∧ (getById s.polygons polygon_id = none →
        points_in_polygon e s polygon_id = (.jsonError 404 "Polygon not found", s))
    ∧ (points_in_polygon e s polygon_id).2 = s := by
  refine ⟨fun polygon hp => ?_, fun hn => ?_, ?_⟩
  · simp [points_in_polygon, hp]
  · simp [points_in_polygon, hn]
  · cases h : getById s.polygons polygon_id <;> simp [points_in_polygon, h]

/-- Closed instance of claim C3 on the sample database. -/
theorem points_in_polygon_spec_witness :
    getById sampleStore.polygons 0 = some ⟨0, "p0", 3⟩
    ∧ points_in_polygon testEngine sampleStore 0
        = (.ok ((sampleStore.points.filter
            (fun p => testEngine.withinPoly p.geom (3 : ℕ))).map (toPtRow testEngine)),
          sampleStore) := by
  have h : getById sampleStore.polygons 0 = some ⟨0, "p0", 3⟩ := rfl
  exact ⟨h, (points_in_polygon_spec testEngine sampleStore 0).1 ⟨0, "p0", 3⟩ h⟩

/-- Claim C4: union_all_polygons is a pass-through to the engine's union:
whenever the engine's aggregate union agrees with its binary union in the
standard way, the handler's left-to-right fold of pairwise unions over the
stored polygons equals the single aggregate engine union of all stored
polygon geometries, and an empty table yields a null union_geojson. -/
theorem union_all_polygons_passthrough {G : Type} (e : Engine G)
    (h1 : ∀ g, e.unionAll [g] = g)
    (h2 : ∀ gs g, gs ≠ [] → e.unionAll (gs ++ [g]) = e.union (e.unionAll gs) g)
    (s : Store G) :
    (s.polygons = [] → (union_all_polygons e s).1 = none)
    ∧ (s.polygons ≠ [] →
        (union_all_polygons e s).1
          = some (e.toGeoJSON (e.unionAll (s.polygons.map (fun f => f.geom))))) := by
  constructor
  · intro h
    simp [union_all_polygons, h]
  · intro h
    cases hp : s.polygons with
    | nil => exact absurd hp h
    | cons p0 rest =>
      have hfold : rest.foldl (fun acc p => e.union acc p.geom) p0.geom
          = e.unionAll ((p0 :: rest).map (fun f => f.geom)) := by
        rw [List.map_cons,
          ← foldl_union_eq_unionAll e h1 h2 p0.geom (rest.map (fun f => f.geom)),
          List.foldl_map]
      simp [union_all_polygons, hp, hfold]

/-- Closed instance of claim C4 on the sample database. -/
theorem union_all_polygons_passthrough_witness :
    sampleStore.polygons ≠ []
    ∧ (union_all_polygons testEngine sampleStore).1
        = some (testEngine.toGeoJSON
            (testEngine.unionAll (sampleStore.polygons.map (fun f => f.geom)))) := by
  have h1 : ∀ g, testEngine.unionAll [g] = g := fun g => rfl
  have h2 : ∀ gs g, gs ≠ [] →
      testEngine.unionAll (gs ++ [g]) = testEngine.union (testEngine.unionAll gs) g := by
    intro gs g hgs
    cases gs with
    | nil => exact absurd rfl hgs
    | cons a as => simp [testEngine, List.foldl_append]
  exact ⟨by decide,
    (union_all_polygons_passthrough testEngine h1 h2 sampleStore).2 (by decide)⟩

/-- Claim C5: nearest_point returns the id, name and engine-computed distance
in meters of a stored point whose engine distance to the query location is
minimal over all stored points, and an error object when no points are
stored; the feature store is unchanged. -/
theorem nearest_point_spec {G : Type} (e : Engine G) (s : Store G) (lng lat : ℚ) :
    (s.points = [] → (nearest_point e s lng lat).1 = .err "No points found")
    ∧ (s.points ≠ [] →
        ∃ f ∈ s.points,
          (nearest_point e s lng lat).1 = .ok ⟨f.id, f.name, e.distance f.geom ⟨lng, lat⟩⟩
          ∧ ∀ g ∈ s.points,
              e.distance f.geom ⟨lng, lat⟩ ≤ e.distance g.geom ⟨lng, lat⟩)
    ∧ (nearest_point e s lng lat).2 = s := by
  refine ⟨fun h => by simp [nearest_point, h, sortByKey], fun h => ?_, ?_⟩
  · cases hs : sortByKey (fun f => e.distance f.geom ⟨lng, lat⟩) s.points with
    | nil => exact absurd hs (sortByKey_ne_nil _ _ h)
    | cons f rest =>
      refine ⟨f, (mem_sortByKey _ f s.points).mp
          (by rw [hs]; exact List.mem_cons_self f rest), ?_, ?_⟩
      · simp [nearest_point, hs]
      · exact fun g hg => sortByKey_head_min _ s.points f rest hs g hg
  · cases hs : sortByKey (fun f => e.distance f.geom ⟨lng, lat⟩) s.points <;>
      simp [nearest_point, hs]

/-- Closed instance of claim C5 on the sample database. -/
theorem nearest_point_spec_witness :
    sampleStore.points ≠ []
    ∧ ∃ f ∈ sampleStore.points,
        (nearest_point testEngine sampleStore 0 0).1
          = .ok ⟨f.id, f.name, testEngine.distance f.geom ⟨0, 0⟩⟩
        ∧ ∀ g ∈ sampleStore.points,
            testEngine.distance f.geom ⟨0, 0⟩ ≤ testEngine.distance g.geom ⟨0, 0⟩ :=
  ⟨by decide, (nearest_point_spec testEngine sampleStore 0 0).2.1 (by decide)⟩

/-- Claim C6: simplify_polygons returns, for every stored polygon, its id and
name unchanged together with the engine's topology-preserving simplification
of its geometry at the given tolerance, whose default is 0.001; the handler
renames but does not alter the engine's result, and the store is unchanged. -/
theorem simplify_polygons_spec {G : Type} (e : Engine G) (s : Store G) (tolerance : ℚ) :
    (simplify_polygons e s tolerance).1
      = s.polygons.map (fun f => ⟨f.id, f.name, e.toGeoJSON (e.simplifyPT f.geom tolerance)⟩)
    ∧ simplify_polygons_default e s = simplify_polygons e s (1 / 1000)
    ∧ (simplify_polygons e s tolerance).2 = s :=
  ⟨rfl, rfl, rfl⟩

/-- Claim C8: every delete endpoint answers success regardless of whether the
id exists, afterwards no feature with that id remains, and deleting twice
equals deleting once. -/
theorem delete_endpoints_spec {G : Type} (s : Store G) (i : ℕ) :
    ((delete_polygon s i).1 = true
      ∧ getById (delete_polygon s i).2.polygons i = none
      ∧ delete_polygon (delete_polygon s i).2 i = delete_polygon s i)
    ∧ ((delete_point (G := G) s i).1 = true
      ∧ getById (delete_point (G := G) s i).2.points i = none
      ∧ delete_point (delete_point (G := G) s i).2 i = delete_point s i)
    ∧ ((delete_line (G := G) s i).1 = true
      ∧ getById (delete_line (G := G) s i).2.lines i = none
      ∧ delete_line (delete_line (G := G) s i).2 i = delete_line s i) := by
  refine ⟨⟨rfl, ?_, ?_⟩, ⟨rfl, ?_, ?_⟩, ⟨rfl, ?_, ?_⟩⟩
  · exact getById_deleteById s.polygons i
  · simp [delete_polygon, deleteById_idem]
  · exact getById_deleteById s.points i
  · simp [delete_point, deleteById_idem]
  · exact getById_deleteById s.lines i
  · simp [delete_line, deleteById_idem]

/-- Claim C9: every query GET endpoint over stored features leaves the
stored point, line, and polygon feature sets unchanged. -/
theorem get_endpoints_frame {G : Type} (e : Engine G) (s : Store G)
    (minx miny maxx maxy lng lat radius_meters tolerance buffer_meters : ℚ) (i j : ℕ) :
    (list_polygons e s).2 = s
    ∧ (polygons_in_bbox e s minx miny maxx maxy).2 = s
    ∧ (polygon_areas e s).2 = s
    ∧ (simplify_polygons e s tolerance).2 = s
    ∧ (polygon_centroids e s).2 = s
    ∧ (get_polygon e s i).2 = s
    ∧ (list_points e s).2 = s
    ∧ (points_near e s lng lat radius_meters).2 = s
    ∧ (get_point (G := G) s i).2 = s
    ∧ (get_line e s i).2 = s
    ∧ (points_in_polygon e s i).2 = s
    ∧ (nearest_point e s lng lat).2 = s
    ∧ (intersection e s i j).2 = s
    ∧ (difference e s i j).2 = s
    ∧ (union_all_polygons e s).2 = s
    ∧ (buffer_polygon e s i buffer_meters).2 = s := by
  refine ⟨rfl, rfl, rfl, rfl, rfl, ?_, rfl, rfl, ?_, ?_, ?_, ?_, ?_, ?_, ?_, ?_⟩
  · cases h : getById s.polygons i <;> simp [get_polygon, h]
  · cases h : getById s.points i <;> simp [get_point, h]
  · cases h : getById s.lines i <;> simp [get_line, h]
  · cases h : getById s.polygons i <;> simp [points_in_polygon, h]
  · cases hs : sortByKey (fun f => e.distance f.geom ⟨lng, lat⟩) s.points <;>
      simp [nearest_point, hs]
  · cases h1 : getById s.polygons i <;> cases h2 : getById s.polygons j <;>
      (simp only [intersection, h1, h2]; try first | rfl | (split <;> rfl))
  · cases h1 : getById s.polygons i <;> cases h2 : getById s.polygons j <;>
      (simp only [difference, h1, h2]; try first | rfl | (split <;> rfl))
  · cases hp : s.polygons <;> simp [union_all_polygons, hp]
  · cases h : getById s.polygons i <;> simp [buffer_polygon, h]

/-- Claim C10: no GDAL endpoint propagates an exception to the caller: on
every input on which an underlying library call raises inside the try block,
or on which the dataset cannot be opened, the endpoint returns a JSON object
with an error field (at normal HTTP status) instead of failing. -/
theorem gdal_endpoints_error_handling {DS Band SRS CT VDS Layer Feat : Type}
    (o : Gdal DS Band SRS CT VDS Layer Feat)
    (raster_path out_path vector_path file_name : String)
    (lng lat minx miny maxx maxy : ℚ) (msg : String) :
    (raster_stats_body o raster_path = .error msg →
        raster_stats o raster_path = .err msg)
    ∧ (o.openRaster raster_path = .ok none →
        raster_stats o raster_path = .err "Could not open raster")
    ∧ (pixel_value_body o raster_path lng lat = .error msg →
        pixel_value o raster_path lng lat = .err msg)
    ∧ (o.openRaster raster_path = .ok none →
        pixel_value o raster_path lng lat
          = .err "NoneType object has no attribute GetGeoTransform")
    ∧ (clip_raster_body o raster_path out_path minx miny maxx maxy = .error msg →
        clip_raster o raster_path out_path minx miny maxx maxy = .err msg)
    ∧ (vector_schema_body o vector_path = .error msg →
        vector_schema o vector_path = .err msg)
    ∧ (o.openVector vector_path = .ok none →
        vector_schema o vector_path = .err "NoneType object has no attribute GetLayer")
    ∧ (upload_and_reproject_body o file_name = .error msg →
        upload_and_reproject o file_name = .err msg)
    ∧ (∀ p rp, o.storageSave file_name = .ok p → o.storagePath p = .ok rp →
        o.openVector rp = .ok none →
        upload_and_reproject o file_name = .err "Could not open uploaded file")
    ∧ (raster_metadata_body o raster_path = .error msg →
        raster_metadata o raster_path = .err msg)
    ∧ (o.openRaster raster_path = .ok none →
        raster_metadata o raster_path = .err "Unable to open raster") := by
  refine ⟨fun h => by simp [raster_stats, runCaught, h],
          fun h => ?_,
          fun h => by simp [pixel_value, runCaught, h],
          fun h => ?_,
          fun h => by simp [clip_raster, runCaught, h],
          fun h => by simp [vector_schema, runCaught, h],
          fun h => ?_,
          fun h => by simp [upload_and_reproject, runCaught, h],
          fun p rp h1 h2 h3 => ?_,
          fun h => by simp [raster_metadata, runCaught, h],
          fun h => ?_⟩
  · simp [raster_stats, raster_stats_body, runCaught, h, except_ok_bind, pure, Except.pure]
  · simp [pixel_value, pixel_value_body, runCaught, h, except_ok_bind,
      except_error_bind, requireSome]
  · simp [vector_schema, vector_schema_body, runCaught, h, except_ok_bind,
      except_error_bind, requireSome]
  · simp [upload_and_reproject, upload_and_reproject_body, runCaught, h1, h2, h3,
      except_ok_bind, pure, Except.pure]
  · simp [raster_metadata, raster_metadata_body, runCaught, h, except_ok_bind, pure, Except.pure]

/-- Closed instance of claim C10: a raising library call, and a soft `None`
from the open calls, each yield an error-object response on every endpoint. -/
theorem gdal_endpoints_error_handling_witness :
    raster_stats_body failGdal "r" = .error "boom"
    ∧ raster_stats failGdal "r" = .err "boom"
    ∧ pixel_value failGdal "r" 0 0 = .err "boom"
    ∧ clip_raster failGdal "r" "o" 0 0 1 1 = .err "boom"
    ∧ vector_schema failGdal "v" = .err "boom"
    ∧ upload_and_reproject failGdal "f" = .err "boom"
    ∧ raster_metadata failGdal "r" = .err "boom"
    ∧ raster_stats noneGdal "r" = .err "Could not open raster"
    ∧ pixel_value noneGdal "r" 0 0
        = .err "NoneType object has no attribute GetGeoTransform"
    ∧ vector_schema noneGdal "v" = .err "NoneType object has no attribute GetLayer"
    ∧ upload_and_reproject noneGdal "f" = .err "Could not open uploaded file"
    ∧ raster_metadata noneGdal "r" = .err "Unable to open raster" := by
  have t := gdal_endpoints_error_handling failGdal "r" "o" "v" "f" 0 0 0 0 1 1 "boom"
  have n := gdal_endpoints_error_handling noneGdal "r" "o" "v" "f" 0 0 0 0 1 1 "boom"
  exact ⟨rfl, t.1 rfl, t.2.2.1 rfl, t.2.2.2.2.1 rfl, t.2.2.2.2.2.1 rfl,
    t.2.2.2.2.2.2.2.1 rfl, t.2.2.2.2.2.2.2.2.2.1 rfl,
    n.2.1 rfl, n.2.2.2.1 rfl, n.2.2.2.2.2.2.1 rfl,
    n.2.2.2.2.2.2.2.2.1 "f" "f" rfl rfl rfl,
    n.2.2.2.2.2.2.2.2.2.2 rfl⟩

/-- Counterexample to claim C7 as stated: on a raster with a rotated
geotransform (c2 = 1), the handler's own Python pixel arithmetic ignores the
rotation coefficients, so the endpoint returns the band value at pixel
(2, 1), namely 3, while the engine's band-1 value at the queried location
under the engine's full inverse geotransform is the value at pixel (1, 1),
namely 2. -/
theorem pixel_value_not_engine_passthrough :
    pixel_value rotGdal "r" (5 / 2) (3 / 2) = .ok 3
    ∧ runCaught (engine_pixel_value_spec rotGdal "r" (5 / 2) (3 / 2)) = .ok 2
    ∧ (OkOrError.ok (3 : ℚ)) ≠ .ok 2 := by
  refine ⟨?_, ?_, ?_⟩
  · simp only [pixel_value, pixel_value_body, rotGdal, failGdal, runCaught,
      requireSome, pyDiv, pyInt, except_ok_bind, except_error_bind, pure, Except.pure]
    norm_num [except_ok_bind, runCaught]
  · simp only [engine_pixel_value_spec, rotGdal, failGdal, runCaught,
      requireSome, except_ok_bind, except_error_bind, pure, Except.pure]
    norm_num [except_ok_bind, runCaught]
  · simp only [ne_eq, OkOrError.ok.injEq]
    norm_num

/-- Claim C7 (amended): for rasters whose geotransform is north-up (both
rotation coefficients zero, nonzero pixel sizes) and query locations whose
pixel offsets are nonnegative, the pixel_value endpoint returns exactly the
engine's band-1 value at the queried location after the engine's coordinate
transformation from EPSG:4326 into the raster's reference system; the pixel
indexing itself is Python arithmetic in the handler rather than an engine
call, and it agrees with the engine's inverse-geotransform lookup precisely
under these conditions. -/
theorem pixel_value_engine_passthrough_northup
    {DS Band SRS CT VDS Layer Feat : Type}
    (o : Gdal DS Band SRS CT VDS Layer Feat) (raster_path : String) (lng lat : ℚ)
    (ds : DS) (gt : GeoTransform) (srs srs2 : SRS) (ct : CT) (xg yg zg : ℚ)
    (hopen : o.openRaster raster_path = .ok (some ds))
    (hgt : o.getGeoTransform ds = gt)
    (hc2 : gt.c2 = 0) (hc4 : gt.c4 = 0) (hc1 : gt.c1 ≠ 0) (hc5 : gt.c5 ≠ 0)
    (hsrs : o.srsFromWkt (o.getProjection ds) = .ok srs)
    (hepsg : o.srsFromEPSG 4326 = .ok srs2)
    (hct : o.coordTransform srs2 srs = .ok ct)
    (htp : o.transformPoint ct lng lat = .ok (xg, yg, zg))
    (hx : 0 ≤ (xg - gt.c0) / gt.c1)
    (hy : 0 ≤ (yg - gt.c3) / gt.c5) :
    pixel_value o raster_path lng lat
      = runCaught (engine_pixel_value_spec o raster_path lng lat) := by
  have hdet : gt.c1 * gt.c5 - gt.c2 * gt.c4 ≠ 0 := by
    rw [hc2, hc4]
    simpa using mul_ne_zero hc1 hc5
  have hpx : (gt.c5 * (xg - gt.c0) - gt.c2 * (yg - gt.c3))
      / (gt.c1 * gt.c5 - gt.c2 * gt.c4) = (xg - gt.c0) / gt.c1 := by
    rw [hc2, hc4]
    simp only [zero_mul, mul_zero, sub_zero]
    rw [mul_comm gt.c1 gt.c5, mul_div_mul_left (xg - gt.c0) gt.c1 hc5]
  have hpy : (gt.c1 * (yg - gt.c3) - gt.c4 * (xg - gt.c0))
      / (gt.c1 * gt.c5 - gt.c2 * gt.c4) = (yg - gt.c3) / gt.c5 := by
    rw [hc2, hc4]
    simp only [zero_mul, mul_zero, sub_zero]
    rw [mul_div_mul_left (yg - gt.c3) gt.c5 hc1]
  simp [pixel_value, pixel_value_body, engine_pixel_value_spec, runCaught,
    hopen, hgt, hsrs, hepsg, hct, htp, except_ok_bind, requireSome, hdet, hpx, hpy,
    pyDiv, hc1, hc5, pyInt_of_nonneg _ hx, pyInt_of_nonneg _ hy]

/-- Closed instance of amended claim C7 on a north-up raster oracle. -/
theorem pixel_value_engine_passthrough_northup_witness :
    northGdal.openRaster "r" = .ok (some ())
    ∧ pixel_value northGdal "r" (5 / 2) (3 / 2)
        = runCaught (engine_pixel_value_spec northGdal "r" (5 / 2) (3 / 2)) := by
  refine ⟨rfl, ?_⟩
  exact pixel_value_engine_passthrough_northup northGdal "r" (5 / 2) (3 / 2) ()
    ⟨0, 1, 0, 0, 0, 1⟩ () () () (5 / 2) (3 / 2) 0 rfl rfl rfl rfl (by norm_num)
    (by norm_num) rfl rfl rfl rfl (by norm_num) (by norm_num)

end WebGIS
